import Mathlib

/-!
Verification development for the Commercial Value Architecture
interactive-diamond visualization.

The computation layer of the application is embedded shallowly:
slider values and coordinates are rationals (JavaScript numbers used
only with `+`, `*`, `/ 2`, `Math.abs`, `Math.max`, `Math.floor`,
comparisons), points and path descriptors are records, and each
source function becomes a Lean function of the same name.
-/

namespace ValueDiamond

/-- The four slider values of the component: `valuePosition`,
`directionPosition`, `exchangePosition`, `operatePosition`
(each ranges over -50..50 in the UI, default 0). -/
structure BalanceState where
  value : ℚ
  direction : ℚ
  exchange : ℚ
  operate : ℚ
deriving DecidableEq, Repr

/-- A 2D point, as used for the diamond vertices. -/
structure Point where
  x : ℚ
  y : ℚ
deriving DecidableEq, Repr

/-- `const topPoint = { x: 400 + valuePosition * 2, y: 120 }`. -/
def topPoint (s : BalanceState) : Point :=
  ⟨400 + s.value * 2, 120⟩

/-- `const rightPoint = { x: 580 + exchangePosition, y: 300 + exchangePosition / 2 }`. -/
def rightPoint (s : BalanceState) : Point :=
  ⟨580 + s.exchange, 300 + s.exchange / 2⟩

/-- `const bottomPoint = { x: 400 + operatePosition * 2, y: 480 }`. -/
def bottomPoint (s : BalanceState) : Point :=
  ⟨400 + s.operate * 2, 480⟩

/-- `const leftPoint = { x: 220 + directionPosition, y: 300 + directionPosition / 2 }`. -/
def leftPoint (s : BalanceState) : Point :=
  ⟨220 + s.direction, 300 + s.direction / 2⟩

/-- One `Q cx,cy x,y` segment of an SVG path: a quadratic Bezier
with control point `control` ending at `target`. -/
structure QuadSeg where
  control : Point
  target : Point
deriving DecidableEq, Repr

/-- An SVG path of the shape `M start Q .. Q .. Q .. Q ..`:
a move-to followed by four quadratic segments. -/
structure PathDesc where
  start : Point
  seg1 : QuadSeg
  seg2 : QuadSeg
  seg3 : QuadSeg
  seg4 : QuadSeg
deriving DecidableEq, Repr

/-- The dynamic path string `diamondPath`, segment for segment:
`M top Q top.x+15,(top.y+right.y)/2 right
 Q (right.x+bottom.x)/2,right.y+50 bottom
 Q bottom.x-30,(bottom.y+left.y)/2 left
 Q (left.x+top.x)/2,left.y-50 top`. -/
def diamondPath (s : BalanceState) : PathDesc :=
  { start := topPoint s
    seg1 := ⟨⟨(topPoint s).x + 15, ((topPoint s).y + (rightPoint s).y) / 2⟩, rightPoint s⟩
    seg2 := ⟨⟨((rightPoint s).x + (bottomPoint s).x) / 2, (rightPoint s).y + 50⟩, bottomPoint s⟩
    seg3 := ⟨⟨(bottomPoint s).x - 30, ((bottomPoint s).y + (leftPoint s).y) / 2⟩, leftPoint s⟩
    seg4 := ⟨⟨((leftPoint s).x + (topPoint s).x) / 2, (leftPoint s).y - 50⟩, topPoint s⟩ }

/-- The constant string `idealDiamondPath`, transcribed literally:
`M 400,120 Q 415,210 580,300 Q 490,350 400,480 Q 310,350 220,300 Q 385,210 400,120`. -/
def idealDiamondPath : PathDesc :=
  { start := ⟨400, 120⟩
    seg1 := ⟨⟨415, 210⟩, ⟨580, 300⟩⟩
    seg2 := ⟨⟨490, 350⟩, ⟨400, 480⟩⟩
    seg3 := ⟨⟨310, 350⟩, ⟨220, 300⟩⟩
    seg4 := ⟨⟨385, 210⟩, ⟨400, 120⟩⟩ }

/-- `calculateHealth`:
`Math.max(0, 100 - (|value| + |direction| + |exchange| + |operate|) / 2)`. -/
def calculateHealth (s : BalanceState) : ℚ :=
  max 0 (100 - (|s.value| + |s.direction| + |s.exchange| + |s.operate|) / 2)

/-- The three qualitative bands a slider value falls into. -/
inductive Band where
  | low
  | high
  | balanced
deriving DecidableEq, Repr

/-- The branch structure shared by `getValueEffect`, `getDirectionEffect`,
`getExchangeEffect` and `getOperateEffect`: first test `< -30`,
then `> 30`, else balanced. -/
def bandOf (v : ℚ) : Band :=
  if v < -30 then Band.low
  else if v > 30 then Band.high
  else Band.balanced

/-- `getValueEffect`, reading `valuePosition`. -/
def getValueEffect (v : ℚ) : String :=
  if v < -30 then "Heavy Wall Street focus. Investors happy but customers may feel neglected."
  else if v > 30 then "Strong customer value focus, but Wall Street may not understand strategy."
  else "Balanced value proposition between investor and customer needs."

/-- `getDirectionEffect`, reading `directionPosition`. -/
def getDirectionEffect (v : ℚ) : String :=
  if v < -30 then "Strategy too investor-focused. Employee engagement suffering."
  else if v > 30 then "Employee-driven strategy may lack market alignment."
  else "Strategic alignment balances investor expectations and employee capabilities."

/-- `getExchangeEffect`, reading `exchangePosition`. -/
def getExchangeEffect (v : ℚ) : String :=
  if v < -30 then "Customer focus without market context. May miss emerging trends."
  else if v > 30 then "Market-driven but not addressing specific customer needs."
  else "Value exchange optimized between customer needs and market conditions."

/-- `getOperateEffect`, reading `operatePosition`. -/
def getOperateEffect (v : ℚ) : String :=
  if v < -30 then "Operating model too employee-centric, disconnected from market realities."
  else if v > 30 then "Market-driven operations without employee engagement."
  else "Operating model aligns employee capabilities with market dynamics."

/-- The five tiers of `getHealthDescription`, in source order. -/
inductive Tier where
  | excellent
  | good
  | moderate
  | significant
  | critical
deriving DecidableEq, Repr

/-- The tier chosen by the branch cascade of `getHealthDescription`:
`health >= 80`, `>= 60`, `>= 40`, `>= 20`, else critical. -/
def healthTier (health : ℚ) : Tier :=
  if 80 ≤ health then Tier.excellent
  else if 60 ≤ health then Tier.good
  else if 40 ≤ health then Tier.moderate
  else if 20 ≤ health then Tier.significant
  else Tier.critical

/-- The sentence returned for each tier by `getHealthDescription`. -/
def tierText : Tier → String
  | Tier.excellent => "Excellent structural integrity! The architecture is aligned and positioned for growth."
  | Tier.good => "Good integrity. Minor adjustments could improve commercial effectiveness."
  | Tier.moderate => "Moderate structural weaknesses. Organization experiencing tension in key areas."
  | Tier.significant => "Significant structural issues. Organization likely experiencing dysfunction."
  | Tier.critical => "Critical structural failure. Organization at risk of collapse."

/-- `getHealthDescription`: computes `calculateHealth()` and returns the
sentence of the tier the score falls into. -/
def getHealthDescription (s : BalanceState) : String :=
  tierText (healthTier (calculateHealth s))

/-- The `key` union type of `BalancePoint` in balancePoints.ts. -/
inductive Key where
  | value
  | direction
  | exchange
  | operate
deriving DecidableEq, Repr

/-- The `effects` record of a `BalancePoint`. -/
structure Effects where
  low : String
  high : String
  balanced : String
deriving DecidableEq, Repr

/-- The `BalancePoint` interface of balancePoints.ts. -/
structure BalancePoint where
  key : Key
  label : String
  stakeholders : String
  description : String
  effects : Effects
deriving DecidableEq, Repr

/-- The `balancePoints` array of balancePoints.ts, transcribed literally. -/
def balancePoints : List BalancePoint :=
  [ { key := Key.value
      label := "VALUE"
      stakeholders := "Wall Street ↔ Customers"
      description := "Balance between investor expectations and customer needs."
      effects :=
        { low := "Heavy Wall Street focus. Investors happy but customers may feel neglected."
          high := "Strong customer value focus, but Wall Street may not understand strategy."
          balanced := "Balanced value proposition between investor and customer needs." } }
  , { key := Key.direction
      label := "DIRECTION"
      stakeholders := "Wall Street ↔ Employees"
      description := "Alignment of strategic direction between investors and employees."
      effects :=
        { low := "Strategy too investor-focused. Employee engagement suffering."
          high := "Employee-driven strategy may lack market alignment."
          balanced := "Strategic alignment balances investor expectations and employee capabilities." } }
  , { key := Key.exchange
      label := "EXCHANGE"
      stakeholders := "Customers ↔ Market"
      description := "Balance between customer focus and market trends."
      effects :=
        { low := "Customer focus without market context. May miss emerging trends."
          high := "Market-driven but not addressing specific customer needs."
          balanced := "Value exchange optimized between customer needs and market conditions." } }
  , { key := Key.operate
      label := "OPERATE"
      stakeholders := "Employees ↔ Market"
      description := "How operational capabilities align employees with market dynamics."
      effects :=
        { low := "Operating model too employee-centric, disconnected from market realities."
          high := "Market-driven operations without employee engagement."
          balanced := "Operating model aligns employee capabilities with market dynamics." } }
  ]

/-- Selecting the effect string of a record for a given band. -/
def effectFor (e : Effects) : Band → String
  | Band.low => e.low
  | Band.high => e.high
  | Band.balanced => e.balanced

/-- Lookup of the `balancePoints` record for a given key. -/
def specFor (k : Key) : Option BalancePoint :=
  balancePoints.find? (fun p => decide (p.key = k))

/-- The data-driven reading of a slider effect: look the field up in
`balancePoints` and select the string of the band of `v`. -/
def tableEffect (k : Key) (v : ℚ) : Option String :=
  (specFor k).map (fun p => effectFor p.effects (bandOf v))

/-- One random draw of the Stress Test button:
`Math.floor(r * 101) - 50` for `r = Math.random()` in [0,1). -/
def randomizeField (r : ℚ) : ℤ :=
  ⌊r * 101⌋ - 50

/-- The Stress Test button: each of the four sliders is set from its
own independent random draw. -/
def randomize (r1 r2 r3 r4 : ℚ) : BalanceState :=
  ⟨(randomizeField r1 : ℤ), (randomizeField r2 : ℤ),
   (randomizeField r3 : ℤ), (randomizeField r4 : ℤ)⟩

/-- The contractual range of the four sliders (`min="-50" max="50"`). -/
def inRange (s : BalanceState) : Prop :=
  -50 ≤ s.value ∧ s.value ≤ 50 ∧
  -50 ≤ s.direction ∧ s.direction ≤ 50 ∧
  -50 ≤ s.exchange ∧ s.exchange ≤ 50 ∧
  -50 ≤ s.operate ∧ s.operate ≤ 50

instance (s : BalanceState) : Decidable (inRange s) := by
  unfold inRange
  infer_instance

/-- Sum of absolute deviations of the four sliders from 0. -/
def totalDeviation (s : BalanceState) : ℚ :=
  |s.value| + |s.direction| + |s.exchange| + |s.operate|

end ValueDiamond

namespace ValueDiamond

/-- The all-zero state set by the Ideal Form button. -/
def zeroState : BalanceState := ⟨0, 0, 0, 0⟩

/-- Claim C1 (counterexample): the stored constant `idealDiamondPath` is
NOT the dynamic curve descriptor computed from the all-zero state. -/
theorem C1_counterexample : diamondPath zeroState ≠ idealDiamondPath := by
  norm_num [diamondPath, idealDiamondPath, zeroState, topPoint, rightPoint,
    bottomPoint, leftPoint, PathDesc.mk.injEq, QuadSeg.mk.injEq, Point.mk.injEq]

/-- Claim C1 (amended): the dynamic curve at the all-zero state agrees with
the stored `idealDiamondPath` on the start point, all four segment
endpoints and the first two control points, but the bottom-to-left
control point is (370, 390) where the constant stores (310, 350), and
the left-to-top control point is (310, 250) where the constant stores
(385, 210). -/
theorem C1_ideal_comparison :
    (diamondPath zeroState).start = idealDiamondPath.start ∧
    (diamondPath zeroState).seg1 = idealDiamondPath.seg1 ∧
    (diamondPath zeroState).seg2 = idealDiamondPath.seg2 ∧
    (diamondPath zeroState).seg3.target = idealDiamondPath.seg3.target ∧
    (diamondPath zeroState).seg4.target = idealDiamondPath.seg4.target ∧
    (diamondPath zeroState).seg3.control = ⟨370, 390⟩ ∧
    idealDiamondPath.seg3.control = ⟨310, 350⟩ ∧
    (diamondPath zeroState).seg4.control = ⟨310, 250⟩ ∧
    idealDiamondPath.seg4.control = ⟨385, 210⟩ := by
  norm_num [diamondPath, idealDiamondPath, zeroState, topPoint, rightPoint,
    bottomPoint, leftPoint, QuadSeg.mk.injEq, Point.mk.injEq]

/-- Claim C2: for every in-range state, `calculateHealth` returns exactly
`max 0 (100 - (sum of absolute values) / 2)`; in particular it returns
100 on the all-zero state and 0 on the state (50, 50, 50, 50). -/
theorem C2_calculateHealth_formula :
    (∀ s : BalanceState, inRange s →
      calculateHealth s =
        max 0 (100 - (|s.value| + |s.direction| + |s.exchange| + |s.operate|) / 2)) ∧
    calculateHealth zeroState = 100 ∧
    calculateHealth ⟨50, 50, 50, 50⟩ = 0 := by
  refine ⟨fun s _ => rfl, by norm_num [calculateHealth, zeroState],
    by norm_num [calculateHealth]⟩

/-- Claim C2 witness at the all-zero state. -/
theorem C2_witness :
    calculateHealth zeroState =
      max 0 (100 - (|zeroState.value| + |zeroState.direction| +
        |zeroState.exchange| + |zeroState.operate|) / 2) :=
  C2_calculateHealth_formula.1 zeroState (by norm_num [inRange, zeroState])

/-- Claim C3: the four vertices are
top = (400 + 2 value, 120), right = (580 + exchange, 300 + exchange/2),
bottom = (400 + 2 operate, 480), left = (220 + direction, 300 + direction/2);
in particular the all-zero state gives (400,120), (580,300), (400,480),
(220,300) and value = 40 gives top = (480,120). -/
theorem C3_vertices :
    (∀ s : BalanceState,
      topPoint s = ⟨400 + 2 * s.value, 120⟩ ∧
      rightPoint s = ⟨580 + s.exchange, 300 + s.exchange / 2⟩ ∧
      bottomPoint s = ⟨400 + 2 * s.operate, 480⟩ ∧
      leftPoint s = ⟨220 + s.direction, 300 + s.direction / 2⟩) ∧
    topPoint zeroState = ⟨400, 120⟩ ∧
    rightPoint zeroState = ⟨580, 300⟩ ∧
    bottomPoint zeroState = ⟨400, 480⟩ ∧
    leftPoint zeroState = ⟨220, 300⟩ ∧
    topPoint ⟨40, 0, 0, 0⟩ = ⟨480, 120⟩ := by
  refine ⟨fun s => ⟨?_, rfl, ?_, rfl⟩,
    by norm_num [topPoint, zeroState, Point.mk.injEq],
    by norm_num [rightPoint, zeroState, Point.mk.injEq],
    by norm_num [bottomPoint, zeroState, Point.mk.injEq],
    by norm_num [leftPoint, zeroState, Point.mk.injEq],
    by norm_num [topPoint, Point.mk.injEq]⟩
  · unfold topPoint
    congr 1
    ring
  · unfold bottomPoint
    congr 1
    ring

/-- Claim C4: for every state the dynamic curve descriptor starts at the
top vertex and runs through right, bottom, left and back to top in four
quadratic segments, with control points
(top.x + 15, (top.y + right.y)/2), ((right.x + bottom.x)/2, right.y + 50),
(bottom.x - 30, (bottom.y + left.y)/2), ((left.x + top.x)/2, left.y - 50). -/
theorem C4_path_structure :
    ∀ s : BalanceState,
      (diamondPath s).start = topPoint s ∧
      (diamondPath s).seg1.target = rightPoint s ∧
      (diamondPath s).seg2.target = bottomPoint s ∧
      (diamondPath s).seg3.target = leftPoint s ∧
      (diamondPath s).seg4.target = topPoint s ∧
      (diamondPath s).seg1.control =
        ⟨(topPoint s).x + 15, ((topPoint s).y + (rightPoint s).y) / 2⟩ ∧
      (diamondPath s).seg2.control =
        ⟨((rightPoint s).x + (bottomPoint s).x) / 2, (rightPoint s).y + 50⟩ ∧
      (diamondPath s).seg3.control =
        ⟨(bottomPoint s).x - 30, ((bottomPoint s).y + (leftPoint s).y) / 2⟩ ∧
      (diamondPath s).seg4.control =
        ⟨((leftPoint s).x + (topPoint s).x) / 2, (leftPoint s).y - 50⟩ :=
  fun _ => ⟨rfl, rfl, rfl, rfl, rfl, rfl, rfl, rfl, rfl⟩

/-- Claim C5: the band of a slider value is low exactly when v < -30,
high exactly when v > 30, balanced otherwise; the boundaries 30 and -30
are balanced, 31 is high and -31 is low. -/
theorem C5_band_thresholds :
    (∀ v : ℚ,
      (bandOf v = Band.low ↔ v < -30) ∧
      (bandOf v = Band.high ↔ 30 < v) ∧
      (bandOf v = Band.balanced ↔ (-30 ≤ v ∧ v ≤ 30))) ∧
    bandOf 30 = Band.balanced ∧
    bandOf (-30) = Band.balanced ∧
    bandOf 31 = Band.high ∧
    bandOf (-31) = Band.low := by
  refine ⟨fun v => ?_, by norm_num [bandOf], by norm_num [bandOf],
    by norm_num [bandOf], by norm_num [bandOf]⟩
  unfold bandOf
  split_ifs with h1 h2
  · exact ⟨iff_of_true rfl h1,
      iff_of_false (by decide) (by linarith),
      iff_of_false (by decide) (by rintro ⟨a, b⟩; linarith)⟩
  · exact ⟨iff_of_false (by decide) (by linarith),
      iff_of_true rfl h2,
      iff_of_false (by decide) (by rintro ⟨a, b⟩; linarith)⟩
  · exact ⟨iff_of_false (by decide) h1,
      iff_of_false (by decide) h2,
      iff_of_true rfl ⟨not_lt.mp h1, not_lt.mp h2⟩⟩

end ValueDiamond

namespace ValueDiamond

/-- Claim C6: for every score in [0,100] the tier cascade of
`getHealthDescription` places the score in exactly one of five tiers,
inclusive on the lower edge: excellent on [80,100], good on [60,80),
moderate on [40,60), significant on [20,40), critical on [0,20). -/
theorem C6_health_tiers (s : ℚ) (h0 : 0 ≤ s) (h1 : s ≤ 100) :
    (healthTier s = Tier.excellent ↔ (80 ≤ s ∧ s ≤ 100)) ∧
    (healthTier s = Tier.good ↔ (60 ≤ s ∧ s < 80)) ∧
    (healthTier s = Tier.moderate ↔ (40 ≤ s ∧ s < 60)) ∧
    (healthTier s = Tier.significant ↔ (20 ≤ s ∧ s < 40)) ∧
    (healthTier s = Tier.critical ↔ (0 ≤ s ∧ s < 20)) := by
  unfold healthTier
  split_ifs with a b c d <;>
    refine ⟨?_, ?_, ?_, ?_, ?_⟩ <;>
    first
      | exact iff_of_true rfl (by constructor <;> linarith)
      | exact iff_of_false (by decide) (by rintro ⟨x, y⟩; linarith)

/-- Claim C6 witness: the score 79 is in the good tier. -/
theorem C6_witness : healthTier 79 = Tier.good ↔ (60 ≤ (79 : ℚ) ∧ (79 : ℚ) < 80) :=
  (C6_health_tiers 79 (by norm_num) (by norm_num)).2.1

/-- Claim C7: for every in-range state the health score lies in [0,100]. -/
theorem C7_health_bounds (s : BalanceState) (_h : inRange s) :
    0 ≤ calculateHealth s ∧ calculateHealth s ≤ 100 := by
  unfold calculateHealth
  have hv := abs_nonneg s.value
  have hd := abs_nonneg s.direction
  have he := abs_nonneg s.exchange
  have ho := abs_nonneg s.operate
  exact ⟨le_max_left 0 _, max_le (by norm_num) (by linarith)⟩

/-- Claim C7 witness at the all-zero state. -/
theorem C7_witness : 0 ≤ calculateHealth zeroState ∧ calculateHealth zeroState ≤ 100 :=
  C7_health_bounds zeroState (by norm_num [inRange, zeroState])

/-- Claim C8: the health score is monotonically non-increasing in the sum
of absolute deviations of the four sliders, and equals 100 exactly when
all four sliders are 0. -/
theorem C8_monotone_and_top :
    (∀ s1 s2 : BalanceState, inRange s1 → inRange s2 →
      totalDeviation s1 ≤ totalDeviation s2 →
      calculateHealth s2 ≤ calculateHealth s1) ∧
    (∀ s : BalanceState, calculateHealth s = 100 ↔
      (s.value = 0 ∧ s.direction = 0 ∧ s.exchange = 0 ∧ s.operate = 0)) := by
  constructor
  · intro s1 s2 _ _ hle
    unfold totalDeviation at hle
    unfold calculateHealth
    exact max_le_max le_rfl (by linarith)
  · intro s
    have hv := abs_nonneg s.value
    have hd := abs_nonneg s.direction
    have he := abs_nonneg s.exchange
    have ho := abs_nonneg s.operate
    unfold calculateHealth
    constructor
    · intro h
      rcases max_eq_iff.mp h with ⟨h0, _⟩ | ⟨ht, _⟩
      · norm_num at h0
      · have hzv : |s.value| = 0 := by linarith
        have hzd : |s.direction| = 0 := by linarith
        have hze : |s.exchange| = 0 := by linarith
        have hzo : |s.operate| = 0 := by linarith
        exact ⟨abs_eq_zero.mp hzv, abs_eq_zero.mp hzd,
          abs_eq_zero.mp hze, abs_eq_zero.mp hzo⟩
    · rintro ⟨a, b, c, d⟩
      rw [a, b, c, d]
      norm_num

/-- Claim C8 witness: a state with deviation 10 scores no more than the
all-zero state. -/
theorem C8_witness : calculateHealth ⟨10, 0, 0, 0⟩ ≤ calculateHealth zeroState :=
  C8_monotone_and_top.1 zeroState ⟨10, 0, 0, 0⟩
    (by norm_num [inRange, zeroState]) (by norm_num [inRange])
    (by norm_num [totalDeviation, zeroState])

/-- Claim C9: each Stress Test draw lands in [-50,50]; every integer of
[-50,50], the endpoint 50 included, is attained by some random input;
the preimage of each attained integer is the half-open interval
[(k+50)/101, (k+51)/101) of equal length 1/101, so a uniform random
input yields a uniform integer; and the four fields of the randomized
state are each in range, each set from its own independent draw. -/
theorem C9_randomize_range :
    (∀ r : ℚ, 0 ≤ r → r < 1 →
      -50 ≤ randomizeField r ∧ randomizeField r ≤ 50) ∧
    (∀ k : ℤ, -50 ≤ k → k ≤ 50 →
      ∃ r : ℚ, 0 ≤ r ∧ r < 1 ∧ randomizeField r = k) ∧
    (∀ k : ℤ, ∀ r : ℚ,
      (randomizeField r = k ↔ ((k : ℚ) + 50) / 101 ≤ r ∧ r < ((k : ℚ) + 51) / 101)) ∧
    (∀ r1 r2 r3 r4 : ℚ, 0 ≤ r1 → r1 < 1 → 0 ≤ r2 → r2 < 1 →
      0 ≤ r3 → r3 < 1 → 0 ≤ r4 → r4 < 1 →
      inRange (randomize r1 r2 r3 r4) ∧
      (randomize r1 r2 r3 r4).value = (randomizeField r1 : ℚ) ∧
      (randomize r1 r2 r3 r4).direction = (randomizeField r2 : ℚ) ∧
      (randomize r1 r2 r3 r4).exchange = (randomizeField r3 : ℚ) ∧
      (randomize r1 r2 r3 r4).operate = (randomizeField r4 : ℚ)) := by
  have bounds : ∀ r : ℚ, 0 ≤ r → r < 1 →
      -50 ≤ randomizeField r ∧ randomizeField r ≤ 50 := by
    intro r h0 h1
    unfold randomizeField
    have hlo : (0 : ℤ) ≤ ⌊r * 101⌋ := Int.floor_nonneg.mpr (by positivity)
    have hhi : ⌊r * 101⌋ < 101 := Int.floor_lt.mpr (by push_cast; linarith)
    omega
  refine ⟨bounds, ?_, ?_, ?_⟩
  · intro k hk1 hk2
    refine ⟨((k : ℚ) + 50) / 101, ?_, ?_, ?_⟩
    · have : (0 : ℚ) ≤ (k : ℚ) + 50 := by
        have : (-50 : ℚ) ≤ (k : ℚ) := by exact_mod_cast hk1
        linarith
      positivity
    · have : (k : ℚ) ≤ 50 := by exact_mod_cast hk2
      rw [div_lt_one (by norm_num)]
      linarith
    · unfold randomizeField
      have harg : ((k : ℚ) + 50) / 101 * 101 = ((k + 50 : ℤ) : ℚ) := by
        push_cast
        field_simp
      rw [harg, Int.floor_intCast]
      omega
  · intro k r
    unfold randomizeField
    constructor
    · intro h
      have hf : ⌊r * 101⌋ = k + 50 := by omega
      have h1 : ((k + 50 : ℤ) : ℚ) ≤ r * 101 := hf ▸ Int.floor_le (r * 101)
      have h2 : r * 101 < ((k + 50 : ℤ) : ℚ) + 1 := hf ▸ Int.lt_floor_add_one (r * 101)
      push_cast at h1 h2
      constructor
      · rw [div_le_iff₀ (by norm_num)]
        linarith
      · rw [lt_div_iff₀ (by norm_num)]
        linarith
    · rintro ⟨h1, h2⟩
      rw [div_le_iff₀ (by norm_num)] at h1
      rw [lt_div_iff₀ (by norm_num)] at h2
      have hf : ⌊r * 101⌋ = k + 50 := by
        apply Int.floor_eq_iff.mpr
        constructor
        · push_cast
          linarith
        · push_cast
          linarith
      omega
  · intro r1 r2 r3 r4 a1 b1 a2 b2 a3 b3 a4 b4
    obtain ⟨lo1, hi1⟩ := bounds r1 a1 b1
    obtain ⟨lo2, hi2⟩ := bounds r2 a2 b2
    obtain ⟨lo3, hi3⟩ := bounds r3 a3 b3
    obtain ⟨lo4, hi4⟩ := bounds r4 a4 b4
    refine ⟨⟨?_, ?_, ?_, ?_, ?_, ?_, ?_, ?_⟩, rfl, rfl, rfl, rfl⟩
    · show (-50 : ℚ) ≤ ((randomizeField r1 : ℤ) : ℚ)
      exact_mod_cast lo1
    · show ((randomizeField r1 : ℤ) : ℚ) ≤ 50
      exact_mod_cast hi1
    · show (-50 : ℚ) ≤ ((randomizeField r2 : ℤ) : ℚ)
      exact_mod_cast lo2
    · show ((randomizeField r2 : ℤ) : ℚ) ≤ 50
      exact_mod_cast hi2
    · show (-50 : ℚ) ≤ ((randomizeField r3 : ℤ) : ℚ)
      exact_mod_cast lo3
    · show ((randomizeField r3 : ℤ) : ℚ) ≤ 50
      exact_mod_cast hi3
    · show (-50 : ℚ) ≤ ((randomizeField r4 : ℤ) : ℚ)
      exact_mod_cast lo4
    · show ((randomizeField r4 : ℤ) : ℚ) ≤ 50
      exact_mod_cast hi4

/-- Claim C9 witness: the draw at r = 100/101 gives the upper endpoint 50. -/
theorem C9_witness :
    ∃ r : ℚ, 0 ≤ r ∧ r < 1 ∧ randomizeField r = 50 :=
  C9_randomize_range.2.1 50 (by norm_num) (by norm_num)

/-- Claim C10: each of the four inline effect functions agrees pointwise
with the data-driven composition that classifies the value into a band
and reads the band string from the record of the `balancePoints` table. -/
theorem C10_table_refinement :
    ∀ v : ℚ,
      tableEffect Key.value v = some (getValueEffect v) ∧
      tableEffect Key.direction v = some (getDirectionEffect v) ∧
      tableEffect Key.exchange v = some (getExchangeEffect v) ∧
      tableEffect Key.operate v = some (getOperateEffect v) := by
  intro v
  unfold tableEffect specFor balancePoints effectFor bandOf
  unfold getValueEffect getDirectionEffect getExchangeEffect getOperateEffect
  refine ⟨?_, ?_, ?_, ?_⟩ <;> split_ifs <;> rfl

end ValueDiamond
